import Mathlib

/-!
Verification of the physics-circuit-simulator engine (src/App.js, src/factory.js).

Numbers: JavaScript numbers are modelled by ℚ (exact rational arithmetic).
`Math.sqrt` is modelled by `Rat.sqrt`, which agrees with the real square root
exactly on perfect squares; geometric theorems that need `distance^2 = dx^2 + dy^2`
carry that as an explicit exactness hypothesis, and all concrete witnesses use
configurations whose distance is a perfect square.

Entities: the JS entity is an id, a type string, and a component map with at
most one component per name; it is modelled as a structure of `Option` fields,
one per component name occurring in the program.
-/

/-- Component `transform` (class TransformComponent): world-space pose. -/
structure TransformComponent where
  x : ℚ
  y : ℚ
  rotation : ℚ
deriving DecidableEq, Repr

/-- Component `draggable` (class MobileByUserComponent). The JS constructor
ignores its argument and always stores `selected = false`. -/
structure MobileByUserComponent where
  selected : Bool
deriving DecidableEq, Repr

/-- Component `physics` (class PhysicsComponent): linear dynamics state. -/
structure PhysicsComponent where
  mass : ℚ
  vx : ℚ
  vy : ℚ
  fx : ℚ
  fy : ℚ
deriving DecidableEq, Repr

/-- Component `tangible` (class PhysicsCollisionComponent): circular envelope. -/
structure PhysicsCollisionComponent where
  radius : ℚ
deriving DecidableEq, Repr

/-- Component `render` (class RenderComponent). -/
structure RenderComponent where
  shape : String
  color : String
  size : ℚ
deriving DecidableEq, Repr

/-- Component `circuit` (class CircuitComponent): electrical role and solved
state; the constructor initialises `current = 0`, `voltage = 0`, no connections. -/
structure CircuitComponent where
  componentType : String
  value : ℚ
  current : ℚ
  voltage : ℚ
  connections : List Nat
deriving DecidableEq, Repr

/-- Component `wire` (class CircuitWireComponent): endpoint snapshot. -/
structure CircuitWireComponent where
  startx : ℚ
  starty : ℚ
  endx : ℚ
  endy : ℚ
deriving DecidableEq, Repr

/-- An entity (class Entity): id, type, and its component map, one optional
slot per component name used by the program. -/
structure Entity where
  id : Nat
  type : String
  transform : Option TransformComponent
  physics : Option PhysicsComponent
  tangible : Option PhysicsCollisionComponent
  render : Option RenderComponent
  draggable : Option MobileByUserComponent
  circuit : Option CircuitComponent
  wire : Option CircuitWireComponent
deriving DecidableEq, Repr

/-- A freshly constructed entity has an empty component map. -/
def Entity.bare (id : Nat) (ty : String) : Entity :=
  ⟨id, ty, none, none, none, none, none, none, none⟩

/-- class EntityRepository: the entity store. `entities` is the Map's contents
in insertion order, `nextId` the id allocator. -/
structure EntityRepository where
  entities : List Entity
  nextId : Nat
deriving DecidableEq, Repr

/-- A fresh repository: no entities, `nextId = 1` (constructor). -/
def EntityRepository.fresh : EntityRepository := ⟨[], 1⟩

/-- `create(type)`: allocate `nextId` (post-incrementing it), register a new
bare entity under that id, return it. -/
def EntityRepository.create (r : EntityRepository) (ty : String) :
    EntityRepository × Entity :=
  let e := Entity.bare r.nextId ty
  (⟨r.entities ++ [e], r.nextId + 1⟩, e)

/-- `clear()`: remove all entities and reset `nextId` to 1. -/
def EntityRepository.clear (_r : EntityRepository) : EntityRepository := ⟨[], 1⟩

/-- In JS, `addComponent` mutates the entity object that the repository also
holds; we model this by rewriting the finished entity back into the store. -/
def EntityRepository.replace (r : EntityRepository) (e : Entity) :
    EntityRepository :=
  ⟨r.entities.map (fun o => if o.id = e.id then e else o), r.nextId⟩

/-- EntityFactory.createPhysicsObject: "Ball" gets transform, physics (with the
constructor defaults vx = -50, vy = 0, fx = fy = 0), render, tangible(20) and
draggable; "Pin" gets the same bundle minus the physics component and with
radius 10; any other type string falls off the end of the if/else-if chain, so
no entity is created and `undefined` (here `none`) is returned. -/
def createPhysicsObject (repo : EntityRepository) (x y mass : ℚ)
    (ty : String) : EntityRepository × Option Entity :=
  if ty = "Ball" then
    let p := repo.create "physics"
    let e := { p.2 with
      transform := some ⟨x, y, 0⟩,
      physics := some ⟨mass, -50, 0, 0, 0⟩,
      render := some ⟨"circle", "#3b82f6", 20⟩,
      tangible := some ⟨20⟩,
      draggable := some ⟨false⟩ }
    (p.1.replace e, some e)
  else if ty = "Pin" then
    let p := repo.create "physics"
    let e := { p.2 with
      transform := some ⟨x, y, 0⟩,
      render := some ⟨"circle", "#3b82f6", 10⟩,
      tangible := some ⟨10⟩,
      draggable := some ⟨false⟩ }
    (p.1.replace e, some e)
  else
    (repo, none)

/-- EntityFactory.createCircuitResistor. -/
def createCircuitResistor (repo : EntityRepository) (x y resistance : ℚ) :
    EntityRepository × Entity :=
  let p := repo.create "circuit"
  let e := { p.2 with
    transform := some ⟨x, y, 0⟩,
    circuit := some ⟨"resistor", resistance, 0, 0, []⟩,
    render := some ⟨"rect", "#ef4444", 40⟩ }
  (p.1.replace e, e)

/-- EntityFactory.createCircuitBattery. -/
def createCircuitBattery (repo : EntityRepository) (x y voltage : ℚ) :
    EntityRepository × Entity :=
  let p := repo.create "circuit"
  let e := { p.2 with
    transform := some ⟨x, y, 0⟩,
    circuit := some ⟨"battery", voltage, 0, 0, []⟩,
    render := some ⟨"rect", "#22c55e", 40⟩ }
  (p.1.replace e, e)

/-- First pass of CircuitSimulationStrategy.update: fold over the entities
accumulating (totalVoltage, totalResistance) from battery and resistor values. -/
def circuitTotals (entities : List Entity) : ℚ × ℚ :=
  entities.foldl (fun acc entity =>
    match entity.circuit with
    | none => acc
    | some circuit =>
      if circuit.componentType = "battery" then (acc.1 + circuit.value, acc.2)
      else if circuit.componentType = "resistor" then (acc.1, acc.2 + circuit.value)
      else acc) (0, 0)

/-- CircuitSimulationStrategy.update: compute totals, then
`current = totalVoltage / totalResistance` when `totalResistance > 0` else 0,
then write `current` into every circuit component and `voltage = current * value`
into every resistor. `deltaTime` is accepted but unused, as in the source. -/
def circuitUpdate (entities : List Entity) (_deltaTime : ℚ) : List Entity :=
  let totalVoltage := (circuitTotals entities).1
  let totalResistance := (circuitTotals entities).2
  let current := if totalResistance > 0 then totalVoltage / totalResistance else 0
  entities.map (fun entity =>
    match entity.circuit with
    | none => entity
    | some circuit =>
      let circuit := { circuit with current := current }
      let circuit :=
        if circuit.componentType = "resistor" then
          { circuit with voltage := current * circuit.value }
        else circuit
      { entity with circuit := some circuit })

/-- PhysicsSimulationStrategy's gravity constant (`this.gravity = 98`). -/
def gravityConst : ℚ := 98

/-- Distance between two transform centers, with `Math.sqrt` modelled by
`Rat.sqrt` (exact on perfect squares). -/
def centerDist (tA tB : TransformComponent) : ℚ :=
  Rat.sqrt ((tB.x - tA.x) * (tB.x - tA.x) + (tB.y - tA.y) * (tB.y - tA.y))

/-- x component of the collision normal (unit vector from A to B), `nx`. -/
def normX (tA tB : TransformComponent) : ℚ := (tB.x - tA.x) / centerDist tA tB

/-- y component of the collision normal, `ny`. -/
def normY (tA tB : TransformComponent) : ℚ := (tB.y - tA.y) / centerDist tA tB

/-- Penetration depth `overlap = (radiusA + radiusB) - distance`. -/
def overlapOf (tA tB : TransformComponent)
    (gA gB : PhysicsCollisionComponent) : ℚ :=
  (gA.radius + gB.radius) - centerDist tA tB

/-- PhysicsSimulationStrategy.collides: two bodies collide when the distance
between their centers is less than the sum of their radii. The source reads
the transform and tangible components unconditionally; it is only called on
entities that have both, and we return `false` when one is missing. -/
def collides (entityA entityB : Entity) : Bool :=
  match entityA.transform, entityB.transform,
        entityA.tangible, entityB.tangible with
  | some transformA, some transformB, some tangibleA, some tangibleB =>
    let dx := transformB.x - transformA.x
    let dy := transformB.y - transformA.y
    let distance := Rat.sqrt (dx * dx + dy * dy)
    decide (distance < tangibleA.radius + tangibleB.radius)
  | _, _, _, _ => false

/-- PhysicsSimulationStrategy.resolveCollision, returning the updated pair
(entityA, entityB). In JS the function mutates the two entities' transform and
physics component objects in place; here it returns the updated entities.
Control flow follows the source: compute the normal, return unchanged when the
center distance is 0, apply positional separation, then branch on whether
entityB owns a physics component (immobile-pin case vs two mobile bodies),
returning early (after the positional change) when the relative velocity along
the normal is `> 0`. When a component the source would dereference is missing
before the distance-0 early return, we return the pair unchanged; `update`
never produces those calls. -/
def resolveCollision (entityA entityB : Entity) : Entity × Entity :=
  match entityA.transform, entityB.transform,
        entityA.tangible, entityB.tangible, entityA.physics with
  | some transformA, some transformB, some tangibleA, some tangibleB,
    some physicsA =>
    let restitution : ℚ := 1
    let dx := transformB.x - transformA.x
    let dy := transformB.y - transformA.y
    let distance := Rat.sqrt (dx * dx + dy * dy)
    if distance = 0 then (entityA, entityB)
    else
      let nx := dx / distance
      let ny := dy / distance
      let overlap := (tangibleA.radius + tangibleB.radius) - distance
      let separationX := nx * overlap * (1 / 2)
      let separationY := ny * overlap * (1 / 2)
      match entityB.physics with
      | none =>
        -- entityB is immobile: A moves twice as far, B is never touched.
        let transformA2 := { transformA with
          x := transformA.x - separationX * 2,
          y := transformA.y - separationY * 2 }
        let velocityAlongNormal := (0 - physicsA.vx) * nx + (0 - physicsA.vy) * ny
        if velocityAlongNormal > 0 then
          ({ entityA with transform := some transformA2 }, entityB)
        else
          let impulse := -(1 + restitution) * velocityAlongNormal
          let impulseX := impulse * nx
          let impulseY := impulse * ny
          let physicsA2 := { physicsA with
            vx := physicsA.vx - impulseX,
            vy := physicsA.vy - impulseY }
          ({ entityA with transform := some transformA2,
                          physics := some physicsA2 }, entityB)
      | some physicsB =>
        let transformA2 := { transformA with
          x := transformA.x - separationX,
          y := transformA.y - separationY }
        let transformB2 := { transformB with
          x := transformB.x + separationX,
          y := transformB.y + separationY }
        let relativeVelocityX := physicsB.vx - physicsA.vx
        let relativeVelocityY := physicsB.vy - physicsA.vy
        let velocityAlongNormal := relativeVelocityX * nx + relativeVelocityY * ny
        if velocityAlongNormal > 0 then
          ({ entityA with transform := some transformA2 },
           { entityB with transform := some transformB2 })
        else
          let impulse := -(1 + restitution) * velocityAlongNormal
          let totalMass := physicsA.mass + physicsB.mass
          let impulseScalar := impulse / totalMass
          let impulseX := impulseScalar * nx
          let impulseY := impulseScalar * ny
          let physicsA2 := { physicsA with
            vx := physicsA.vx - impulseX * physicsB.mass,
            vy := physicsA.vy - impulseY * physicsB.mass }
          let physicsB2 := { physicsB with
            vx := physicsB.vx + impulseX * physicsA.mass,
            vy := physicsB.vy + impulseY * physicsA.mass }
          ({ entityA with transform := some transformA2,
                          physics := some physicsA2 },
           { entityB with transform := some transformB2,
                          physics := some physicsB2 })
  | _, _, _, _, _ => (entityA, entityB)

/-- The inner collision loop of PhysicsSimulationStrategy.update for the
entity at index `i`: iterate over the whole entity array, and for each partner
`e` run the source's guard verbatim,
`if (!(entity.id === e.id) || !e.hasComponent('tangible')) return;`
(note: it skips every `e` whose id DIFFERS from the current entity's), then
`collides`/`resolveCollision`. In-place mutation is modelled by reading both
entities from the evolving state and writing the resolved pair back. -/
def collisionScan (entities : List Entity) (i : Nat) : List Entity :=
  (List.range entities.length).foldl (fun st j =>
    match st.get? i, st.get? j with
    | some entity, some e =>
      if ¬(entity.id = e.id) ∨ ¬e.tangible.isSome then st
      else if collides entity e then
        let p := resolveCollision entity e
        (st.set j p.2).set i p.1
      else st
    | _, _ => st) entities

/-- One iteration of the outer loop of PhysicsSimulationStrategy.update for
the entity at index `i`: skip unless both physics and transform are present;
apply gravity to `fy`; semi-implicit Euler (velocity from force, then position
from velocity); run the collision scan when the entity is tangible; then
ground/wall clamping with velocity inversion and force reset, acting on the
entity's state as left by the collision scan. -/
def stepEntity (gravity deltaTime : ℚ) (st : List Entity) (i : Nat) :
    List Entity :=
  match st.get? i with
  | none => st
  | some entity =>
    match entity.physics, entity.transform with
    | some physics, some transform =>
      let physics := { physics with fy := physics.fy + physics.mass * gravity }
      let physics := { physics with
        vx := physics.vx + (physics.fx / physics.mass) * deltaTime }
      let physics := { physics with
        vy := physics.vy + (physics.fy / physics.mass) * deltaTime }
      let transform := { transform with x := transform.x + physics.vx * deltaTime }
      let transform := { transform with y := transform.y + physics.vy * deltaTime }
      let st := st.set i { entity with
        physics := some physics, transform := some transform }
      let st := if entity.tangible.isSome then collisionScan st i else st
      match st.get? i with
      | none => st
      | some entity2 =>
        match entity2.physics, entity2.transform with
        | some physics2, some transform2 =>
          let q :=
            if transform2.y ≥ 550 then
              ({ transform2 with y := 550 }, { physics2 with vy := physics2.vy * (-1) })
            else (transform2, physics2)
          let q :=
            if q.1.x ≥ 800 then
              ({ q.1 with x := 800 }, { q.2 with vx := q.2.vx * (-1) })
            else q
          let q :=
            if q.1.x ≤ 10 then
              ({ q.1 with x := 10 }, { q.2 with vx := q.2.vx * (-1) })
            else q
          let physics3 := { q.2 with fx := 0, fy := 0 }
          st.set i { entity2 with physics := some physics3, transform := some q.1 }
        | _, _ => st
    | _, _ => st

/-- PhysicsSimulationStrategy.update: the outer forEach over the entity array,
with in-place mutation modelled by threading the entity list through
`stepEntity` for each index in order. -/
def physicsUpdate (gravity : ℚ) (entities : List Entity) (deltaTime : ℚ) :
    List Entity :=
  (List.range entities.length).foldl (stepEntity gravity deltaTime) entities

/-- A sequence of `create` calls, returning the final repository and the list
of ids assigned, in order. -/
def createSeq (r : EntityRepository) (ts : List String) :
    EntityRepository × List Nat :=
  match ts with
  | [] => (r, [])
  | ty :: rest =>
    let p := r.create ty
    let q := createSeq p.1 rest
    (q.1, p.2.id :: q.2)

/-! ### Concrete entities used by witnesses and counterexamples -/

/-- The repository contents after seeding one 9V battery and 100Ω and 200Ω
resistors through the factory. -/
def circuitExampleEntities : List Entity :=
  (createCircuitResistor
    (createCircuitResistor
      (createCircuitBattery EntityRepository.fresh 0 0 9).1 0 0 100).1
    0 0 200).1.entities

/-- A mobile tangible body at (100, 100), at rest. -/
def ballOne : Entity :=
  { Entity.bare 1 "physics" with
    transform := some ⟨100, 100, 0⟩,
    physics := some ⟨1, 0, 0, 0, 0⟩,
    tangible := some ⟨20⟩ }

/-- A mobile tangible body at (110, 100), at rest, overlapping `ballOne`. -/
def ballTwo : Entity :=
  { Entity.bare 2 "physics" with
    transform := some ⟨110, 100, 0⟩,
    physics := some ⟨1, 0, 0, 0, 0⟩,
    tangible := some ⟨20⟩ }

/-- A mobile body at the origin, at rest. -/
def restA : Entity :=
  { Entity.bare 1 "physics" with
    transform := some ⟨0, 0, 0⟩,
    physics := some ⟨1, 0, 0, 0, 0⟩,
    tangible := some ⟨20⟩ }

/-- A mobile body at (10, 0) moving away from `restA` with velocity (5, 0). -/
def fleeB : Entity :=
  { Entity.bare 2 "physics" with
    transform := some ⟨10, 0, 0⟩,
    physics := some ⟨1, 5, 0, 0, 0⟩,
    tangible := some ⟨20⟩ }

/-- A mobile body at the origin moving right with velocity (5, 0). -/
def movingA : Entity :=
  { Entity.bare 1 "physics" with
    transform := some ⟨0, 0, 0⟩,
    physics := some ⟨1, 5, 0, 0, 0⟩,
    tangible := some ⟨20⟩ }

/-- An immobile pin at (10, 0): tangible but with no physics component. -/
def pinB : Entity :=
  { Entity.bare 2 "physics" with
    transform := some ⟨10, 0, 0⟩,
    tangible := some ⟨10⟩ }

/-- A mobile body at the origin moving right at speed 4. -/
def headOnA : Entity :=
  { Entity.bare 1 "physics" with
    transform := some ⟨0, 0, 0⟩,
    physics := some ⟨1, 4, 0, 0, 0⟩,
    tangible := some ⟨20⟩ }

/-- A mobile body at (30, 0) moving left at speed 4, toward `headOnA`. -/
def headOnB : Entity :=
  { Entity.bare 2 "physics" with
    transform := some ⟨30, 0, 0⟩,
    physics := some ⟨1, -4, 0, 0, 0⟩,
    tangible := some ⟨20⟩ }

/-- A mobile body at (5, 5). -/
def coincidentA : Entity :=
  { Entity.bare 1 "physics" with
    transform := some ⟨5, 5, 0⟩,
    physics := some ⟨1, 3, 4, 0, 0⟩,
    tangible := some ⟨20⟩ }

/-- A second mobile body whose center exactly coincides with `coincidentA`. -/
def coincidentB : Entity :=
  { Entity.bare 2 "physics" with
    transform := some ⟨5, 5, 0⟩,
    physics := some ⟨1, -2, 7, 0, 0⟩,
    tangible := some ⟨20⟩ }

/-- Two batteries and no resistor. -/
def twoBatteries : List Entity :=
  ((createCircuitBattery (createCircuitBattery EntityRepository.fresh 0 0 9).1
    0 0 5).1).entities

/-! ### Helper lemmas -/

lemma ratSqrt_of_sq {q r : ℚ} (h : 0 ≤ r) (hq : q = r * r) : Rat.sqrt q = r := by
  rw [hq, Rat.sqrt_eq, abs_of_nonneg h]

lemma ratSqrt_zero : Rat.sqrt (0 : ℚ) = 0 := ratSqrt_of_sq le_rfl (by norm_num)

lemma ratSqrt_hundred : Rat.sqrt (100 : ℚ) = 10 :=
  ratSqrt_of_sq (by norm_num) (by norm_num)

lemma ratSqrt_ninehundred : Rat.sqrt (900 : ℚ) = 30 :=
  ratSqrt_of_sq (by norm_num) (by norm_num)

lemma createSeq_ids (ts : List String) :
    ∀ r : EntityRepository, (createSeq r ts).2 = List.range' r.nextId ts.length := by
  induction ts with
  | nil => intro r; rfl
  | cons ty rest ih =>
    intro r
    simp only [createSeq, EntityRepository.create, Entity.bare, ih,
      List.length_cons, List.range'_succ]

/-- The second pass of the circuit totals fold never touches the resistance
accumulator when no entity carries a resistor circuit component. -/
lemma circuitTotals_snd (entities : List Entity)
    (h : ∀ e ∈ entities, ∀ c, e.circuit = some c → c.componentType ≠ "resistor") :
    ∀ acc : ℚ × ℚ,
      (entities.foldl (fun acc entity =>
        match entity.circuit with
        | none => acc
        | some circuit =>
          if circuit.componentType = "battery" then (acc.1 + circuit.value, acc.2)
          else if circuit.componentType = "resistor" then (acc.1, acc.2 + circuit.value)
          else acc) acc).2 = acc.2 := by
  induction entities with
  | nil => intro acc; rfl
  | cons e rest ih =>
    intro acc
    have he := h e (by simp)
    have hrest : ∀ x ∈ rest, ∀ c, x.circuit = some c → c.componentType ≠ "resistor" :=
      fun x hx => h x (by simp [hx])
    rw [List.foldl_cons, ih hrest]
    cases hc : e.circuit with
    | none => rfl
    | some c =>
      have hnr : c.componentType ≠ "resistor" := he c hc
      by_cases hb : c.componentType = "battery" <;> simp [hc, hb, hnr]

/-- `resolveCollision` of an entity against itself is the identity: the center
distance is 0, so the distance-0 early return fires (or a component is missing
and the call is out of scope). -/
lemma resolveCollision_self (a : Entity) : resolveCollision a a = (a, a) := by
  cases hta : a.transform <;> cases hga : a.tangible <;> cases hpa : a.physics <;>
    simp [resolveCollision, hta, hga, hpa, ratSqrt_zero]

/-- On a one-element list the collision scan does nothing: the only partner is
the entity itself and self-resolution is the identity. -/
lemma collisionScan_single (a : Entity) : collisionScan [a] 0 = [a] := by
  simp only [collisionScan, List.length_singleton,
    (show List.range 1 = [0] from rfl),
    List.foldl_cons, List.foldl_nil, List.get?]
  split
  · rfl
  · split <;> simp [resolveCollision_self]

/-! ### Claim theorems -/

/-- C1: the claim says `PhysicsSimulationStrategy.update` tests every entity
with `physics`+`transform`+`tangible` against every OTHER tangible entity and
resolves each overlapping distinct pair. The code's partner guard
`if (!(entity.id === e.id) || !e.hasComponent('tangible')) return;` skips every
partner whose id differs from the current entity's, so no distinct pair is ever
resolved: here `ballOne` and `ballTwo` overlap (first conjunct), an update tick
leaves them completely untouched (second conjunct, `deltaTime = 0` so the
claimed collision response is the only thing that could move them), even though
`resolveCollision` on that pair is not a no-op (third conjunct, the positional
separation it would apply). This contradicts the claim and the source's own
intent (its comment reads "TODO: ... collisions are broken"). -/
theorem c1_update_never_resolves_distinct_pairs :
    collides ballOne ballTwo = true ∧
    physicsUpdate gravityConst [ballOne, ballTwo] 0 = [ballOne, ballTwo] ∧
    resolveCollision ballOne ballTwo ≠ (ballOne, ballTwo) := by
  refine ⟨?_, ?_, ?_⟩
  · norm_num [collides, ballOne, ballTwo, Entity.bare, ratSqrt_hundred]
  · norm_num [physicsUpdate, stepEntity, collisionScan, collides, resolveCollision,
      ballOne, ballTwo, Entity.bare, gravityConst, ratSqrt_zero, ratSqrt_hundred,
      (show List.range 2 = [0, 1] from rfl)]
  · norm_num [resolveCollision, ballOne, ballTwo, Entity.bare, ratSqrt_hundred,
      Prod.ext_iff, Entity.mk.injEq, TransformComponent.mk.injEq, Option.some.injEq]

/-- C3: one 9V battery plus 100Ω and 200Ω resistors solve to current 0.03 on
every circuit entity (battery included), with resistor voltages 3.0 and 6.0. -/
theorem c3_circuit_example :
    (circuitUpdate circuitExampleEntities 0).map (fun e =>
      e.circuit.map fun c => (c.componentType, c.value, c.current, c.voltage)) =
    [some ("battery", 9, 3 / 100, 0),
     some ("resistor", 100, 3 / 100, 3),
     some ("resistor", 200, 3 / 100, 6)] := by
  norm_num [circuitUpdate, circuitTotals, circuitExampleEntities,
    createCircuitBattery, createCircuitResistor, EntityRepository.fresh,
    EntityRepository.create, EntityRepository.replace, Entity.bare,
    (show (("battery" : String) = "resistor") = False by simp),
    (show (("resistor" : String) = "battery") = False by simp)]

/-- C5: with no resistor circuit component anywhere, the total resistance is 0,
the division guard takes the `else 0` branch, and every circuit entity ends the
tick with `current = 0`, however many batteries are present. -/
theorem c5_no_resistors_current_zero (entities : List Entity) (dt : ℚ)
    (h : ∀ e ∈ entities, ∀ c, e.circuit = some c → c.componentType ≠ "resistor") :
    (circuitTotals entities).2 = 0 ∧
    ∀ e ∈ circuitUpdate entities dt, ∀ c, e.circuit = some c → c.current = 0 := by
  have htot : (circuitTotals entities).2 = 0 := circuitTotals_snd entities h (0, 0)
  refine ⟨htot, ?_⟩
  intro e he c hc
  simp only [circuitUpdate, htot] at he
  rw [if_neg (by norm_num)] at he
  obtain ⟨a, ham, hae⟩ := List.mem_map.1 he
  cases hac : a.circuit with
  | none =>
    simp only [hac] at hae
    subst hae
    rw [hac] at hc
    cases hc
  | some c0 =>
    simp only [hac] at hae
    subst hae
    simp only [Option.some.injEq] at hc
    split at hc <;> rw [← hc]

/-- C6: from a fresh repository the ids assigned by any sequence of `create`
calls are exactly 1, 2, 3, ..., hence strictly increasing and never reused;
from any repository state they are strictly increasing and duplicate-free;
and after `clear()` the next `create` yields id 1. -/
theorem c6_id_monotonicity_and_clear_reset :
    (∀ (r : EntityRepository) (ts : List String),
      ((createSeq r ts).2).Pairwise (· < ·) ∧ ((createSeq r ts).2).Nodup) ∧
    (∀ ts : List String,
      (createSeq EntityRepository.fresh ts).2 = List.range' 1 ts.length) ∧
    (∀ (r : EntityRepository) (ty : String), ((r.clear).create ty).2.id = 1) := by
  refine ⟨fun r ts => ?_, fun ts => ?_, fun r ty => rfl⟩
  · rw [createSeq_ids]
    exact ⟨List.pairwise_lt_range' .., List.nodup_range' ..⟩
  · rw [createSeq_ids]; rfl

/-- C8: when the two transform centers exactly coincide the distance is 0 and
`resolveCollision` returns before touching anything: total in the model (no
throw, the division by the distance is never reached), both entities exactly
unchanged. -/
theorem c8_degenerate_collision_unchanged (entityA entityB : Entity)
    (tA tB : TransformComponent)
    (hta : entityA.transform = some tA) (htb : entityB.transform = some tB)
    (hx : tB.x = tA.x) (hy : tB.y = tA.y) :
    resolveCollision entityA entityB = (entityA, entityB) := by
  cases hga : entityA.tangible <;> cases hgb : entityB.tangible <;>
    cases hpa : entityA.physics <;>
      simp [resolveCollision, hta, htb, hx, hy, hga, hgb, hpa, ratSqrt_zero]

/-- Witness for C8: two distinct mobile bodies stacked at (5, 5) are returned
exactly unchanged. -/
theorem c8_degenerate_collision_unchanged_witness :
    (coincidentA.transform = some ⟨5, 5, 0⟩ ∧
     coincidentB.transform = some ⟨5, 5, 0⟩) ∧
    resolveCollision coincidentA coincidentB = (coincidentA, coincidentB) :=
  ⟨⟨rfl, rfl⟩,
   c8_degenerate_collision_unchanged coincidentA coincidentB ⟨5, 5, 0⟩ ⟨5, 5, 0⟩
     rfl rfl rfl rfl⟩

/-- C10: `createPhysicsObject` with a type other than "Ball" or "Pin" falls
through both branches: the repository is returned unchanged (same entities,
same `nextId`) and no entity is produced. -/
theorem c10_unknown_type_creates_nothing (repo : EntityRepository)
    (x y mass : ℚ) (ty : String) (h1 : ty ≠ "Ball") (h2 : ty ≠ "Pin") :
    createPhysicsObject repo x y mass ty = (repo, none) := by
  simp [createPhysicsObject, h1, h2]

/-- Witness for C10: type "Rock" creates nothing from a fresh repository. -/
theorem c10_unknown_type_creates_nothing_witness :
    (("Rock" : String) ≠ "Ball" ∧ ("Rock" : String) ≠ "Pin") ∧
    createPhysicsObject EntityRepository.fresh 0 0 1 "Rock" =
      (EntityRepository.fresh, none) :=
  ⟨⟨by decide, by decide⟩,
   c10_unknown_type_creates_nothing EntityRepository.fresh 0 0 1 "Rock"
     (by decide) (by decide)⟩

/-- Counterexample to C2 as stated: both bodies are mobile, overlapping, with
distinct centers and a separating (≥ 0) relative normal velocity, yet the call
does NOT leave everything unchanged — the positional separation is applied
before the separating-velocity early return. -/
theorem c2_counterexample_positions_move :
    collides restA fleeB = true ∧
    centerDist ⟨0, 0, 0⟩ ⟨10, 0, 0⟩ ≠ 0 ∧
    0 ≤ ((5 : ℚ) - 0) * normX ⟨0, 0, 0⟩ ⟨10, 0, 0⟩ +
      ((0 : ℚ) - 0) * normY ⟨0, 0, 0⟩ ⟨10, 0, 0⟩ ∧
    resolveCollision restA fleeB ≠ (restA, fleeB) := by
  refine ⟨?_, ?_, ?_, ?_⟩
  · norm_num [collides, restA, fleeB, Entity.bare, ratSqrt_hundred]
  · norm_num [centerDist, ratSqrt_hundred]
  · norm_num [normX, normY, centerDist, ratSqrt_hundred]
  · norm_num [resolveCollision, restA, fleeB, Entity.bare, ratSqrt_hundred,
      Prod.ext_iff, Entity.mk.injEq, TransformComponent.mk.injEq, Option.some.injEq]

/-- C2 amended: on two overlapping mobile bodies with distinct centers and
relative normal velocity ≥ 0, `resolveCollision` leaves both velocities (indeed
both whole physics components) unchanged, but still moves each body by half the
overlap along the collision normal (A backward, B forward). -/
theorem c2_separating_velocities_unchanged (entityA entityB : Entity)
    (tA tB : TransformComponent) (pA pB : PhysicsComponent)
    (gA gB : PhysicsCollisionComponent)
    (hta : entityA.transform = some tA) (htb : entityB.transform = some tB)
    (hpa : entityA.physics = some pA) (hpb : entityB.physics = some pB)
    (hga : entityA.tangible = some gA) (hgb : entityB.tangible = some gB)
    (hd : centerDist tA tB ≠ 0)
    (hv : 0 ≤ (pB.vx - pA.vx) * normX tA tB + (pB.vy - pA.vy) * normY tA tB) :
    (resolveCollision entityA entityB).1.physics = some pA ∧
    (resolveCollision entityA entityB).2.physics = some pB ∧
    (resolveCollision entityA entityB).1.transform =
      some ⟨tA.x - normX tA tB * overlapOf tA tB gA gB * (1 / 2),
            tA.y - normY tA tB * overlapOf tA tB gA gB * (1 / 2), tA.rotation⟩ ∧
    (resolveCollision entityA entityB).2.transform =
      some ⟨tB.x + normX tA tB * overlapOf tA tB gA gB * (1 / 2),
            tB.y + normY tA tB * overlapOf tA tB gA gB * (1 / 2), tB.rotation⟩ := by
  have hd' : ¬ (Rat.sqrt ((tB.x - tA.x) * (tB.x - tA.x) +
      (tB.y - tA.y) * (tB.y - tA.y)) = 0) := by
    simpa [centerDist] using hd
  simp only [normX, normY, centerDist] at hv
  simp only [resolveCollision, hta, htb, hga, hgb, hpa, hpb, if_neg hd']
  simp only [normX, normY, overlapOf, centerDist]
  split
  · exact ⟨hpa ▸ rfl, hpb ▸ rfl, rfl, rfl⟩
  · next h =>
    have hv0 : (pB.vx - pA.vx) * ((tB.x - tA.x) /
        Rat.sqrt ((tB.x - tA.x) * (tB.x - tA.x) + (tB.y - tA.y) * (tB.y - tA.y))) +
        (pB.vy - pA.vy) * ((tB.y - tA.y) /
        Rat.sqrt ((tB.x - tA.x) * (tB.x - tA.x) + (tB.y - tA.y) * (tB.y - tA.y))) = 0 :=
      le_antisymm (not_lt.1 h) hv
    refine ⟨?_, ?_, rfl, rfl⟩ <;> simp [hv0]

/-- Witness for the amended C2 at `restA`/`fleeB`: hypotheses hold and the
velocities survive while both transforms receive the half-overlap shift. -/
theorem c2_separating_velocities_unchanged_witness :
    (centerDist ⟨0, 0, 0⟩ ⟨10, 0, 0⟩ ≠ 0 ∧
     0 ≤ ((5 : ℚ) - 0) * normX ⟨0, 0, 0⟩ ⟨10, 0, 0⟩ +
       ((0 : ℚ) - 0) * normY ⟨0, 0, 0⟩ ⟨10, 0, 0⟩) ∧
    ((resolveCollision restA fleeB).1.physics = some ⟨1, 0, 0, 0, 0⟩ ∧
     (resolveCollision restA fleeB).2.physics = some ⟨1, 5, 0, 0, 0⟩ ∧
     (resolveCollision restA fleeB).1.transform =
       some ⟨0 - normX ⟨0, 0, 0⟩ ⟨10, 0, 0⟩ *
               overlapOf ⟨0, 0, 0⟩ ⟨10, 0, 0⟩ ⟨20⟩ ⟨20⟩ * (1 / 2),
             0 - normY ⟨0, 0, 0⟩ ⟨10, 0, 0⟩ *
               overlapOf ⟨0, 0, 0⟩ ⟨10, 0, 0⟩ ⟨20⟩ ⟨20⟩ * (1 / 2), 0⟩ ∧
     (resolveCollision restA fleeB).2.transform =
       some ⟨10 + normX ⟨0, 0, 0⟩ ⟨10, 0, 0⟩ *
               overlapOf ⟨0, 0, 0⟩ ⟨10, 0, 0⟩ ⟨20⟩ ⟨20⟩ * (1 / 2),
             0 + normY ⟨0, 0, 0⟩ ⟨10, 0, 0⟩ *
               overlapOf ⟨0, 0, 0⟩ ⟨10, 0, 0⟩ ⟨20⟩ ⟨20⟩ * (1 / 2), 0⟩) :=
  ⟨⟨by norm_num [centerDist, ratSqrt_hundred],
    by norm_num [normX, normY, centerDist, ratSqrt_hundred]⟩,
   c2_separating_velocities_unchanged restA fleeB ⟨0, 0, 0⟩ ⟨10, 0, 0⟩
     ⟨1, 0, 0, 0, 0⟩ ⟨1, 5, 0, 0, 0⟩ ⟨20⟩ ⟨20⟩ rfl rfl rfl rfl rfl rfl
     (by norm_num [centerDist, ratSqrt_hundred])
     (by norm_num [normX, normY, centerDist, ratSqrt_hundred])⟩

/-- C4: colliding with an immobile pin (no physics on B), with distinct centers,
exact distance, overlap, and A approaching (relative normal velocity ≤ 0):
B is returned untouched, A is moved backward along the normal by the ENTIRE
overlap, and A's velocity is reflected about the normal — the normal component
is negated while the tangential component (and mass and forces) survive. -/
theorem c4_pin_full_correction_and_reflection (entityA entityB : Entity)
    (tA tB : TransformComponent) (pA : PhysicsComponent)
    (gA gB : PhysicsCollisionComponent)
    (hta : entityA.transform = some tA) (htb : entityB.transform = some tB)
    (hpa : entityA.physics = some pA) (hpb : entityB.physics = none)
    (hga : entityA.tangible = some gA) (hgb : entityB.tangible = some gB)
    (hd : centerDist tA tB ≠ 0)
    (hexact : centerDist tA tB * centerDist tA tB =
      (tB.x - tA.x) * (tB.x - tA.x) + (tB.y - tA.y) * (tB.y - tA.y))
    (hoverlap : centerDist tA tB < gA.radius + gB.radius)
    (happroach : (0 - pA.vx) * normX tA tB + (0 - pA.vy) * normY tA tB ≤ 0) :
    (resolveCollision entityA entityB).2 = entityB ∧
    (resolveCollision entityA entityB).1.transform =
      some ⟨tA.x - normX tA tB * overlapOf tA tB gA gB,
            tA.y - normY tA tB * overlapOf tA tB gA gB, tA.rotation⟩ ∧
    ∃ pA2, (resolveCollision entityA entityB).1.physics = some pA2 ∧
      pA2.mass = pA.mass ∧ pA2.fx = pA.fx ∧ pA2.fy = pA.fy ∧
      pA2.vx * normX tA tB + pA2.vy * normY tA tB =
        -(pA.vx * normX tA tB + pA.vy * normY tA tB) ∧
      pA2.vx * normY tA tB - pA2.vy * normX tA tB =
        pA.vx * normY tA tB - pA.vy * normX tA tB := by
  have hunit : normX tA tB * normX tA tB + normY tA tB * normY tA tB = 1 := by
    unfold normX normY
    field_simp
    linarith [hexact]
  have hd' : ¬ (Rat.sqrt ((tB.x - tA.x) * (tB.x - tA.x) +
      (tB.y - tA.y) * (tB.y - tA.y)) = 0) := by
    simpa [centerDist] using hd
  simp only [resolveCollision, hta, htb, hga, hgb, hpa, hpb, if_neg hd']
  rw [show Rat.sqrt ((tB.x - tA.x) * (tB.x - tA.x) +
      (tB.y - tA.y) * (tB.y - tA.y)) = centerDist tA tB from rfl]
  rw [show (tB.x - tA.x) / centerDist tA tB = normX tA tB from rfl]
  rw [show (tB.y - tA.y) / centerDist tA tB = normY tA tB from rfl]
  rw [show gA.radius + gB.radius - centerDist tA tB = overlapOf tA tB gA gB from rfl]
  rw [if_neg (not_lt.mpr happroach)]
  refine ⟨rfl, ?_, ?_⟩
  · simp only [Option.some.injEq, TransformComponent.mk.injEq]
    refine ⟨by ring, by ring, trivial⟩
  · refine ⟨_, rfl, rfl, rfl, rfl, ?_, ?_⟩
    · linear_combination (-2 * (pA.vx * normX tA tB + pA.vy * normY tA tB)) * hunit
    · ring

/-- Witness for C4: `movingA` (velocity (5,0)) hits pin `pinB` at distance 10;
all hypotheses hold and the pin is untouched while A takes the full correction
and reflection. -/
theorem c4_pin_full_correction_and_reflection_witness :
    (centerDist ⟨0, 0, 0⟩ ⟨10, 0, 0⟩ ≠ 0 ∧
     centerDist ⟨0, 0, 0⟩ ⟨10, 0, 0⟩ * centerDist ⟨0, 0, 0⟩ ⟨10, 0, 0⟩ =
       ((10 : ℚ) - 0) * ((10 : ℚ) - 0) + ((0 : ℚ) - 0) * ((0 : ℚ) - 0) ∧
     centerDist ⟨0, 0, 0⟩ ⟨10, 0, 0⟩ < 20 + 10 ∧
     ((0 : ℚ) - 5) * normX ⟨0, 0, 0⟩ ⟨10, 0, 0⟩ +
       ((0 : ℚ) - 0) * normY ⟨0, 0, 0⟩ ⟨10, 0, 0⟩ ≤ 0) ∧
    ((resolveCollision movingA pinB).2 = pinB ∧
     (resolveCollision movingA pinB).1.transform =
       some ⟨0 - normX ⟨0, 0, 0⟩ ⟨10, 0, 0⟩ *
               overlapOf ⟨0, 0, 0⟩ ⟨10, 0, 0⟩ ⟨20⟩ ⟨10⟩,
             0 - normY ⟨0, 0, 0⟩ ⟨10, 0, 0⟩ *
               overlapOf ⟨0, 0, 0⟩ ⟨10, 0, 0⟩ ⟨20⟩ ⟨10⟩, 0⟩ ∧
     ∃ pA2, (resolveCollision movingA pinB).1.physics = some pA2 ∧
       pA2.mass = 1 ∧ pA2.fx = 0 ∧ pA2.fy = 0 ∧
       pA2.vx * normX ⟨0, 0, 0⟩ ⟨10, 0, 0⟩ + pA2.vy * normY ⟨0, 0, 0⟩ ⟨10, 0, 0⟩ =
         -((5 : ℚ) * normX ⟨0, 0, 0⟩ ⟨10, 0, 0⟩ +
           (0 : ℚ) * normY ⟨0, 0, 0⟩ ⟨10, 0, 0⟩) ∧
       pA2.vx * normY ⟨0, 0, 0⟩ ⟨10, 0, 0⟩ - pA2.vy * normX ⟨0, 0, 0⟩ ⟨10, 0, 0⟩ =
         (5 : ℚ) * normY ⟨0, 0, 0⟩ ⟨10, 0, 0⟩ -
           (0 : ℚ) * normX ⟨0, 0, 0⟩ ⟨10, 0, 0⟩) :=
  ⟨⟨by norm_num [centerDist, ratSqrt_hundred],
    by norm_num [centerDist, ratSqrt_hundred],
    by norm_num [centerDist, ratSqrt_hundred],
    by norm_num [normX, normY, centerDist, ratSqrt_hundred]⟩,
   c4_pin_full_correction_and_reflection movingA pinB ⟨0, 0, 0⟩ ⟨10, 0, 0⟩
     ⟨1, 5, 0, 0, 0⟩ ⟨20⟩ ⟨10⟩ rfl rfl rfl rfl rfl rfl
     (by norm_num [centerDist, ratSqrt_hundred])
     (by norm_num [centerDist, ratSqrt_hundred])
     (by norm_num [centerDist, ratSqrt_hundred])
     (by norm_num [normX, normY, centerDist, ratSqrt_hundred])⟩

/-- C9: a head-on collision between two overlapping mobile bodies of equal mass
moving toward each other along the collision normal with opposite equal-speed
velocities exactly swaps the two velocities and preserves the total kinetic
energy computed from the swapped values. -/
theorem c9_equal_mass_headon_swap (entityA entityB : Entity)
    (tA tB : TransformComponent) (pA pB : PhysicsComponent)
    (gA gB : PhysicsCollisionComponent) (s : ℚ)
    (hta : entityA.transform = some tA) (htb : entityB.transform = some tB)
    (hpa : entityA.physics = some pA) (hpb : entityB.physics = some pB)
    (hga : entityA.tangible = some gA) (hgb : entityB.tangible = some gB)
    (hd : centerDist tA tB ≠ 0)
    (hexact : centerDist tA tB * centerDist tA tB =
      (tB.x - tA.x) * (tB.x - tA.x) + (tB.y - tA.y) * (tB.y - tA.y))
    (hoverlap : centerDist tA tB < gA.radius + gB.radius)
    (hmass : pB.mass = pA.mass) (hm : 0 < pA.mass) (hs : 0 < s)
    (hvax : pA.vx = s * normX tA tB) (hvay : pA.vy = s * normY tA tB)
    (hvbx : pB.vx = -(s * normX tA tB)) (hvby : pB.vy = -(s * normY tA tB)) :
    (resolveCollision entityA entityB).1.physics =
      some ⟨pA.mass, pB.vx, pB.vy, pA.fx, pA.fy⟩ ∧
    (resolveCollision entityA entityB).2.physics =
      some ⟨pB.mass, pA.vx, pA.vy, pB.fx, pB.fy⟩ ∧
    (1 / 2) * pA.mass * (pB.vx * pB.vx + pB.vy * pB.vy) +
      (1 / 2) * pB.mass * (pA.vx * pA.vx + pA.vy * pA.vy) =
    (1 / 2) * pA.mass * (pA.vx * pA.vx + pA.vy * pA.vy) +
      (1 / 2) * pB.mass * (pB.vx * pB.vx + pB.vy * pB.vy) := by
  have hunit : normX tA tB * normX tA tB + normY tA tB * normY tA tB = 1 := by
    unfold normX normY
    field_simp
    linarith [hexact]
  have hd' : ¬ (Rat.sqrt ((tB.x - tA.x) * (tB.x - tA.x) +
      (tB.y - tA.y) * (tB.y - tA.y)) = 0) := by
    simpa [centerDist] using hd
  simp only [resolveCollision, hta, htb, hga, hgb, hpa, hpb, if_neg hd']
  rw [show Rat.sqrt ((tB.x - tA.x) * (tB.x - tA.x) +
      (tB.y - tA.y) * (tB.y - tA.y)) = centerDist tA tB from rfl]
  rw [show (tB.x - tA.x) / centerDist tA tB = normX tA tB from rfl]
  rw [show (tB.y - tA.y) / centerDist tA tB = normY tA tB from rfl]
  have hvan : (pB.vx - pA.vx) * normX tA tB + (pB.vy - pA.vy) * normY tA tB =
      -(2 * s) := by
    rw [hvax, hvay, hvbx, hvby]
    linear_combination (-2 * s) * hunit
  rw [hvan, if_neg (by linarith)]
  have hmne : pA.mass ≠ 0 := hm.ne'
  refine ⟨?_, ?_, ?_⟩
  · simp only [Option.some.injEq, PhysicsComponent.mk.injEq]
    refine ⟨trivial, ?_, ?_, trivial, trivial⟩
    · rw [hvax, hvbx, hmass]; field_simp; ring
    · rw [hvay, hvby, hmass]; field_simp; ring
  · simp only [Option.some.injEq, PhysicsComponent.mk.injEq]
    refine ⟨trivial, ?_, ?_, trivial, trivial⟩
    · rw [hvax, hvbx, hmass]; field_simp; ring
    · rw [hvay, hvby, hmass]; field_simp; ring
  · rw [hmass]; ring

/-- Witness for C9: `headOnA` and `headOnB`, equal mass 1, speeds 4 toward each
other along the x axis at distance 30 (radii 20 + 20): velocities swap. -/
theorem c9_equal_mass_headon_swap_witness :
    (centerDist ⟨0, 0, 0⟩ ⟨30, 0, 0⟩ ≠ 0 ∧
     centerDist ⟨0, 0, 0⟩ ⟨30, 0, 0⟩ * centerDist ⟨0, 0, 0⟩ ⟨30, 0, 0⟩ =
       ((30 : ℚ) - 0) * ((30 : ℚ) - 0) + ((0 : ℚ) - 0) * ((0 : ℚ) - 0) ∧
     centerDist ⟨0, 0, 0⟩ ⟨30, 0, 0⟩ < 20 + 20 ∧
     (4 : ℚ) = 4 * normX ⟨0, 0, 0⟩ ⟨30, 0, 0⟩ ∧
     (0 : ℚ) = 4 * normY ⟨0, 0, 0⟩ ⟨30, 0, 0⟩ ∧
     (-4 : ℚ) = -(4 * normX ⟨0, 0, 0⟩ ⟨30, 0, 0⟩) ∧
     (0 : ℚ) = -(4 * normY ⟨0, 0, 0⟩ ⟨30, 0, 0⟩)) ∧
    ((resolveCollision headOnA headOnB).1.physics = some ⟨1, -4, 0, 0, 0⟩ ∧
     (resolveCollision headOnA headOnB).2.physics = some ⟨1, 4, 0, 0, 0⟩ ∧
     (1 / 2 : ℚ) * 1 * ((-4) * (-4) + 0 * 0) + (1 / 2) * 1 * (4 * 4 + 0 * 0) =
       (1 / 2) * 1 * (4 * 4 + 0 * 0) + (1 / 2) * 1 * ((-4) * (-4) + 0 * 0)) :=
  ⟨⟨by norm_num [centerDist, ratSqrt_ninehundred],
    by norm_num [centerDist, ratSqrt_ninehundred],
    by norm_num [centerDist, ratSqrt_ninehundred],
    by norm_num [normX, centerDist, ratSqrt_ninehundred],
    by norm_num [normY, centerDist, ratSqrt_ninehundred],
    by norm_num [normX, centerDist, ratSqrt_ninehundred],
    by norm_num [normY, centerDist, ratSqrt_ninehundred]⟩,
   c9_equal_mass_headon_swap headOnA headOnB ⟨0, 0, 0⟩ ⟨30, 0, 0⟩
     ⟨1, 4, 0, 0, 0⟩ ⟨1, -4, 0, 0, 0⟩ ⟨20⟩ ⟨20⟩ 4 rfl rfl rfl rfl rfl rfl
     (by norm_num [centerDist, ratSqrt_ninehundred])
     (by norm_num [centerDist, ratSqrt_ninehundred])
     (by norm_num [centerDist, ratSqrt_ninehundred])
     rfl (by norm_num) (by norm_num)
     (by norm_num [normX, centerDist, ratSqrt_ninehundred])
     (by norm_num [normY, centerDist, ratSqrt_ninehundred])
     (by norm_num [normX, centerDist, ratSqrt_ninehundred])
     (by norm_num [normY, centerDist, ratSqrt_ninehundred])⟩

/-- C7: a single mass-1 body at rest with zero force, whose post-integration
position stays strictly inside the world bounds, gains exactly `vy = g*dt` and
`y = y0 + g*dt*dt` in one tick, keeps `vx = 0` and `x = x0`, and ends the tick
with both force accumulators reset to 0 (self-collision is a no-op). -/
theorem c7_gravity_only_integration (e : Entity) (t : TransformComponent) (dt : ℚ)
    (hp : e.physics = some ⟨1, 0, 0, 0, 0⟩) (ht : e.transform = some t)
    (hx1 : 10 < t.x) (hx2 : t.x < 800)
    (hy : t.y + gravityConst * dt * dt < 550) :
    ∃ e2, physicsUpdate gravityConst [e] dt = [e2] ∧
      e2.physics = some ⟨1, 0, gravityConst * dt, 0, 0⟩ ∧
      e2.transform = some ⟨t.x, t.y + gravityConst * dt * dt, t.rotation⟩ := by
  have h0 : physicsUpdate gravityConst [e] dt = stepEntity gravityConst dt [e] 0 := rfl
  refine ⟨{ e with
      physics := some (PhysicsComponent.mk 1 0 (gravityConst * dt) 0 0),
      transform := some (TransformComponent.mk t.x
        (t.y + gravityConst * dt * dt) t.rotation) }, ?_, rfl, rfl⟩
  rw [h0]
  simp only [stepEntity, List.get?, hp, ht]
  have hrec : PhysicsComponent.mk 1 (0 + 0 / 1 * dt)
      (0 + (0 + 1 * gravityConst) / 1 * dt) 0 (0 + 1 * gravityConst) =
      PhysicsComponent.mk 1 0 (gravityConst * dt) 0 gravityConst := by
    simp only [PhysicsComponent.mk.injEq]
    norm_num
  have htrec : TransformComponent.mk (t.x + (0 + 0 / 1 * dt) * dt)
      (t.y + (0 + (0 + 1 * gravityConst) / 1 * dt) * dt) t.rotation =
      TransformComponent.mk t.x (t.y + gravityConst * dt * dt) t.rotation := by
    simp only [TransformComponent.mk.injEq]
    refine ⟨by norm_num, by ring, trivial⟩
  rw [hrec, htrec]
  cases hg : e.tangible with
  | none =>
    simp [List.set, hg, not_le.mpr hy, not_le.mpr hx2, not_le.mpr hx1]
  | some g0 =>
    simp only [hg, Option.isSome_some, if_true, List.set]
    rw [collisionScan_single]
    simp [not_le.mpr hy, not_le.mpr hx2, not_le.mpr hx1]

/-- Witness for C7: `ballOne` at (100, 100) with `dt = 1/10`: one tick yields
`vy = 98/10` and `y = 100 + 98/100`, with x untouched and forces reset. -/
theorem c7_gravity_only_integration_witness :
    ((10 : ℚ) < 100 ∧ (100 : ℚ) < 800 ∧
     (100 : ℚ) + gravityConst * (1 / 10) * (1 / 10) < 550) ∧
    ∃ e2, physicsUpdate gravityConst [ballOne] (1 / 10) = [e2] ∧
      e2.physics = some ⟨1, 0, gravityConst * (1 / 10), 0, 0⟩ ∧
      e2.transform = some ⟨100, 100 + gravityConst * (1 / 10) * (1 / 10), 0⟩ :=
  ⟨⟨by norm_num, by norm_num, by norm_num [gravityConst]⟩,
   c7_gravity_only_integration ballOne ⟨100, 100, 0⟩ (1 / 10) rfl rfl
     (by norm_num) (by norm_num) (by norm_num [gravityConst])⟩

/-- Witness for C5: two batteries (9V and 5V) and no resistor: every circuit
entity reads `current = 0` after the solve. -/
theorem c5_no_resistors_current_zero_witness :
    (∀ e ∈ twoBatteries, ∀ c, e.circuit = some c → c.componentType ≠ "resistor") ∧
    ((circuitTotals twoBatteries).2 = 0 ∧
     ∀ e ∈ circuitUpdate twoBatteries 0, ∀ c, e.circuit = some c → c.current = 0) := by
  have h : ∀ e ∈ twoBatteries, ∀ c, e.circuit = some c →
      c.componentType ≠ "resistor" := by
    intro e he c hc
    simp only [twoBatteries, createCircuitBattery, EntityRepository.fresh,
      EntityRepository.create, EntityRepository.replace, Entity.bare,
      List.map, List.mem_cons, List.not_mem_nil, or_false,
      List.nil_append, List.cons_append, List.mem_singleton] at he
    rcases he with rfl | rfl <;> simp_all <;> (rw [← hc]; decide)
  exact ⟨h, c5_no_resistors_current_zero twoBatteries 0 h⟩
